import Mathlib

/-!
Shallow embedding of the chainlit chatbot service (src/services) in Lean 4.

The embedding follows the Python sources:
  * src/services/schema.py            — MessageRole
  * src/services/utils.py             — store_history_in_memory
  * src/services/base_workflow.py     — set_model
  * src/services/workflow_factory.py  — create_workflow
  * src/services/chatbot_service.py   — process_request
  * src/services/workflows/*.py       — the four workflow variants

Python strings are Lean String; Python dict histories are records with
optional fields (dict.get with a default); exceptions are an explicit error
type threaded through an explicit state-passing result type; the external
LLM backend, chat-completion client and search agent are oracle parameters.
-/

namespace Chatbot

/-! ### Python string primitives used by the sources -/

/-- Python str.upper restricted to ASCII letters (the role strings the code
compares against are ASCII). -/
def pyUpperChar (c : Char) : Char :=
  if 'a' ≤ c ∧ c ≤ 'z' then Char.ofNat (c.toNat - 32) else c

/-- Python str.upper on a whole string. -/
def pyUpper (s : String) : String := String.mk (s.toList.map pyUpperChar)

/-- Python str.lower restricted to ASCII letters. -/
def pyLowerChar (c : Char) : Char :=
  if 'A' ≤ c ∧ c ≤ 'Z' then Char.ofNat (c.toNat + 32) else c

/-- Python str.lower on a whole string. -/
def pyLower (s : String) : String := String.mk (s.toList.map pyLowerChar)

/-- Python str.strip whitespace set: space, tab, newline, carriage return,
vertical tab, form feed. -/
def isPySpace (c : Char) : Bool :=
  c = ' ' || c = '\t' || c = '\n' || c = '\r' || c = Char.ofNat 11 || c = Char.ofNat 12

/-- Python str.strip on the character list. -/
def pyStripList (l : List Char) : List Char :=
  ((l.dropWhile isPySpace).reverse.dropWhile isPySpace).reverse

/-- Python str.strip: drop leading and trailing whitespace. -/
def pyStrip (s : String) : String := String.mk (pyStripList s.toList)

/-- Python substring test `needle in hay`. -/
def strContains (hay needle : String) : Bool :=
  hay.toList.tails.any (fun t => needle.toList.isPrefixOf t)

/-! ### src/services/schema.py -/

/-- Enum MessageRole of schema.py: HUMAN = "user", ASSISTANT = "assistant",
SYSTEM = "system". -/
inductive MessageRole where
  | HUMAN
  | ASSISTANT
  | SYSTEM
  deriving DecidableEq, Repr

/-- ChatMessage of the llama_index interface: a role-tagged content string. -/
structure ChatMessage where
  role : MessageRole
  content : String
  deriving DecidableEq, Repr

/-- ChatMemoryBuffer viewed through its interface contract: an ordered log of
messages; put appends. -/
abbrev Memory := List ChatMessage

/-- memory.put appends a message at the end. -/
def Memory.put (m : Memory) (msg : ChatMessage) : Memory := m ++ [msg]

/-! ### src/services/utils.py — store_history_in_memory -/

/-- One entry of the history list: a Python dict that may or may not carry
the "role" and "content" keys. -/
structure HistEntry where
  role : Option String
  content : Option String
  deriving DecidableEq, Repr

/-- Role translation of store_history_in_memory: upper-case the entry's role
string (dict.get default ""), map "USER" to HUMAN, "ASSISTANT" to ASSISTANT,
anything else to SYSTEM. -/
def translateRole (r : String) : MessageRole :=
  let u := pyUpper r
  if u = "USER" then MessageRole.HUMAN
  else if u = "ASSISTANT" then MessageRole.ASSISTANT
  else MessageRole.SYSTEM

/-- The ChatMessage built from one history entry: translated role and the
entry's content (dict.get default ""). -/
def entryToMessage (e : HistEntry) : ChatMessage :=
  { role := translateRole (e.role.getD ""), content := e.content.getD "" }

/-- store_history_in_memory of utils.py. The history argument is optional
(Python None); `if history:` skips both None and the empty list. -/
def store_history_in_memory (history : Option (List HistEntry)) (memory : Memory) :
    Memory :=
  match history with
  | none => memory
  | some h =>
      if h.isEmpty then memory
      else h.foldl (fun m e => m.put (entryToMessage e)) memory

/-! ### Subtask decomposition (multi_step_agent_workflow.py, decompose_task) -/

/-- Subtask model of multi_step_agent_workflow.py: description plus a result
that starts empty. -/
structure Subtask where
  description : String
  result : String
  deriving DecidableEq, Repr

/-- The subtask list built by decompose_task from the structured response:
`[Subtask(description=task.strip()) for task in response.subtasks if task.strip()]`. -/
def decompose_subtasks (candidates : List String) : List Subtask :=
  (candidates.filter (fun t => !(pyStrip t).isEmpty)).map
    (fun t => { description := pyStrip t, result := "" })

/-! ### Exceptions, program state, oracles -/

/-- The Python exceptions the embedded code can raise. -/
inductive PyError where
  | valueError (msg : String)
  | typeError (msg : String)
  | backendError (msg : String)
  deriving DecidableEq, Repr

/-- The mutable state a workflow invocation touches: the multi-step agent's
own ChatMemoryBuffer, the chainlit user-session memory and model selection,
and observation logs of every stage entered and every call sent to the
external LLM backend or chat-completion client. -/
structure PyState where
  memory : Memory
  sessionMemory : Option Memory
  sessionModel : String
  stages : List String
  llmCalls : List String
  chatCalls : List (String × List ChatMessage)
  deriving DecidableEq, Repr

/-- Result of running a statement sequence: a value or a raised exception,
together with the state at that point (Python side effects performed before a
raise persist). -/
inductive PyResult (α : Type) where
  | ok (val : α) (st : PyState)
  | err (e : PyError) (st : PyState)
  deriving DecidableEq, Repr

/-- The state a result ends in, whether it returned or raised. -/
def PyResult.finalState : PyResult α → PyState
  | .ok _ st => st
  | .err _ st => st

/-- True when the result returned normally. -/
def PyResult.isOk : PyResult α → Bool
  | .ok _ _ => true
  | .err _ _ => false

/-- The llama_index LLM oracle the multi-step agent uses: astructured_predict
for the decomposition and acomplete for plain completions. Either may raise. -/
structure Backend where
  structuredSubtasks : String → Except PyError (List String)
  complete : String → Except PyError String

/-- The `self.client.chat.completions.create(model, messages)` oracle the
simple-chatbot, prompt-optimization and web-search workflows call. -/
structure ChatBackend where
  create : String → List ChatMessage → Except PyError String

/-- The FunctionCallingAgent achat oracle of the web-search workflow. -/
structure SearchBackend where
  achat : String → Except PyError String

/-! ### src/services/base_workflow.py — set_model -/

/-- The keys of set_model's model_mapping in base_workflow.py. -/
def model_mapping_keys : List String :=
  ["llama-3.1-70b-versatile", "llama-3.1-8b-instant", "gpt-4o", "gpt-4o-mini",
   "models/gemini-1.5-pro", "models/gemini-1.5-flash"]

/-- set_model of BaseWorkflow: bind a known model identifier to its client
(modelled as the identifier itself), raise ValueError otherwise. -/
def set_model (model : String) : Except PyError String :=
  if model ∈ model_mapping_keys then Except.ok model
  else Except.error (PyError.valueError ("Unsupported model: " ++ model))

/-- The fixed apology string every workflow's except-branch returns. -/
def apology : String :=
  "I apologize, but I encountered an error while processing your request. Please try again later."

/-- The `except Exception` boundary of execute_request_workflow: a raised
exception is converted to the apology string; state mutations done before the
raise persist. -/
def catch_apology (r : PyResult String) : PyResult String :=
  match r with
  | .ok v st => .ok v st
  | .err _ st => .ok apology st

/-! ### src/services/workflows/multi_step_agent_workflow.py -/

/-- AgentRequest of the multi-step workflow: the user input and the subtask
list threaded between stages (history field is unused by the stages and the
workflow never populates it, so it is not modelled on the record). -/
structure AgentRequest where
  user_input : String
  subtasks : List Subtask
  deriving DecidableEq, Repr

/-- AgentResponse: final response text plus the description-to-result map. -/
structure AgentResponse where
  final_response : String
  subtask_results : List (String × String)
  deriving DecidableEq, Repr

/-- decomposition_prompt_template.format(user_input=...). -/
def decomposition_prompt (user_input : String) : String :=
  "Break down the following user request into a maximum of 3 clear, actionable, and self-contained subtasks. "
    ++ "Each subtask should represent a logical step towards fulfilling the request and have a specific, measurable outcome. "
    ++ "Consider the different components or stages involved in completing the request. "
    ++ "Provide sufficient context and instructions for each subtask to be executed independently:\n"
    ++ user_input

/-- execution_prompt_template.format(subtask_description=...). -/
def execution_prompt (subtask_description : String) : String :=
  "Perform the following subtask and provide a detailed result. "
    ++ "Ensure the response is clear and directly addresses the task:\n"
    ++ subtask_description

/-- combination_prompt_template.format(subtask_results=...). -/
def combination_prompt (subtask_results : String) : String :=
  "Synthesize the following subtask results into a comprehensive and well-structured response. "
    ++ "Ensure a smooth flow of information and logical transitions between the different sections. "
    ++ "Address all subtasks in a coherent manner, maintaining clarity and conciseness. "
    ++ "The final output should read as a unified whole, not a collection of separate parts:\n"
    ++ subtask_results

/-- final_response_prompt_template.format(draft_response=...). -/
def final_response_prompt (draft_response : String) : String :=
  "Refine the following draft response into a polished and natural-sounding final answer. "
    ++ "Focus on clarity, conciseness, and a smooth, engaging writing style. "
    ++ "Ensure the response is easy to understand and free of any awkward phrasing or grammatical errors. "
    ++ "Maintain the original meaning and information while enhancing the overall quality of the writing:\n"
    ++ draft_response

/-- Insertion into a Python dict rendered as an association list: a repeated
key overwrites in place, a new key goes to the end. -/
def dict_insert (d : List (String × String)) (k v : String) : List (String × String) :=
  if d.any (fun p => p.1 == k) then d.map (fun p => if p.1 == k then (k, v) else p)
  else d ++ [(k, v)]

/-- The dict comprehension of combine_results:
`{subtask.description: subtask.result for subtask in request.subtasks}`. -/
def subtask_results_dict (subs : List Subtask) : List (String × String) :=
  subs.foldl (fun d sub => dict_insert d sub.description sub.result) []

/-- Python str() of one dict item. -/
def render_pair (p : String × String) : String :=
  "\x27" ++ p.1 ++ "\x27: \x27" ++ p.2 ++ "\x27"

/-- Python str() of the whole dict, as interpolated into the combination
prompt. -/
def render_pairs (ps : List (String × String)) : String :=
  "\x7b" ++ String.intercalate ", " (ps.map render_pair) ++ "\x7d"

/-- Record that a pipeline stage was entered. -/
def enter_stage (nm : String) (st : PyState) : PyState :=
  { st with stages := st.stages ++ [nm] }

/-- Send a completion prompt to the multi-step agent's LLM, logging the call. -/
def llm_complete (b : Backend) (prompt : String) (st : PyState) : PyResult String :=
  let st := { st with llmCalls := st.llmCalls ++ [prompt] }
  match b.complete prompt with
  | .error e => .err e st
  | .ok r => .ok r st

/-- decompose_task: structured-predict the decomposition prompt, then build
the subtask list from the non-empty stripped candidates. -/
def decompose_task (b : Backend) (req : AgentRequest) (st : PyState) :
    PyResult AgentRequest :=
  let prompt := decomposition_prompt req.user_input
  let st := enter_stage "decompose" st
  let st := { st with llmCalls := st.llmCalls ++ [prompt] }
  match b.structuredSubtasks prompt with
  | .error e => .err e st
  | .ok cands => .ok { req with subtasks := decompose_subtasks cands } st

/-- execute_single_subtask: complete the execution prompt for one subtask and
write the stripped response back onto the subtask. -/
def execute_single_subtask (b : Backend) (sub : Subtask) (st : PyState) :
    PyResult Subtask :=
  match llm_complete b (execution_prompt sub.description) st with
  | .err e st => .err e st
  | .ok r st => .ok { sub with result := pyStrip r } st

/-- The asyncio.gather of execute_subtasks at the Except level: every
subtask's completion must resolve; any raise fails the stage. -/
def execute_subtasks_list (b : Backend) :
    List Subtask → PyState → PyResult (List Subtask)
  | [], st => .ok [] st
  | sub :: rest, st =>
    match execute_single_subtask b sub st with
    | .err e st => .err e st
    | .ok sub2 st =>
      match execute_subtasks_list b rest st with
      | .err e st => .err e st
      | .ok rest2 st => .ok (sub2 :: rest2) st

/-- execute_subtasks: run every subtask's completion; the stage resolves only
when all of them have. -/
def execute_subtasks (b : Backend) (req : AgentRequest) (st : PyState) :
    PyResult AgentRequest :=
  let st := enter_stage "execute" st
  match execute_subtasks_list b req.subtasks st with
  | .err e st => .err e st
  | .ok subs st => .ok { req with subtasks := subs } st

/-- combine_results: build the description-to-result dict and complete the
combination prompt over its rendering. -/
def combine_results (b : Backend) (req : AgentRequest) (st : PyState) :
    PyResult AgentResponse :=
  let st := enter_stage "combine" st
  let pairs := subtask_results_dict req.subtasks
  match llm_complete b (combination_prompt (render_pairs pairs)) st with
  | .err e st => .err e st
  | .ok r st => .ok { final_response := pyStrip r, subtask_results := pairs } st

/-- generate_final_response: complete the refinement prompt over the draft. -/
def generate_final_response (b : Backend) (resp : AgentResponse) (st : PyState) :
    PyResult AgentResponse :=
  let st := enter_stage "finalize" st
  match llm_complete b (final_response_prompt resp.final_response) st with
  | .err e st => .err e st
  | .ok r st => .ok { resp with final_response := pyStrip r } st

/-- The try-block body of MultiStepAgentWorkflow.execute_request_workflow:
load history into memory, append the user input, then run the four stages in
sequence and append the final response. -/
def multi_step_body (b : Backend) (user_input : String)
    (history : Option (List HistEntry)) (st : PyState) : PyResult String :=
  let st := { st with memory := store_history_in_memory history st.memory }
  let st := { st with memory := st.memory.put ⟨MessageRole.HUMAN, user_input⟩ }
  match decompose_task b { user_input := user_input, subtasks := [] } st with
  | .err e st => .err e st
  | .ok req st =>
    match execute_subtasks b req st with
    | .err e st => .err e st
    | .ok req st =>
      match combine_results b req st with
      | .err e st => .err e st
      | .ok resp st =>
        match generate_final_response b resp st with
        | .err e st => .err e st
        | .ok resp st =>
          .ok resp.final_response
            { st with memory := st.memory.put ⟨MessageRole.ASSISTANT, resp.final_response⟩ }

/-- MultiStepAgentWorkflow.execute_request_workflow: set_model runs first and
outside the try block (its exception propagates); everything else is inside
the try block whose except-branch returns the apology string. -/
def multi_step_execute_request_workflow (b : Backend) (user_input : String)
    (history : Option (List HistEntry)) (model : String) (st : PyState) :
    PyResult String :=
  match set_model model with
  | .error e => .err e st
  | .ok _ => catch_apology (multi_step_body b user_input history st)

/-! ### Session memory operations (cl.user_session) -/

/-- `cl.user_session.get("memory").put(msg)`: append to the session memory. -/
def session_put (msg : ChatMessage) (st : PyState) : PyState :=
  { st with sessionMemory := some ((st.sessionMemory.getD []).put msg) }

/-- `self.client.chat.completions.create(model=..., messages=...).choices[0].message.content`,
logging the call. -/
def chat_create (cb : ChatBackend) (model : String) (messages : List ChatMessage)
    (st : PyState) : PyResult String :=
  let st := { st with chatCalls := st.chatCalls ++ [(model, messages)] }
  match cb.create model messages with
  | .error e => .err e st
  | .ok r => .ok r st

/-! ### src/services/workflows/simple_chatbot_workflow.py -/

/-- SimpleChatbotWorkflow._setup_chat_store: fresh session memory seeded with
the system message. -/
def simple_setup_chat_store (st : PyState) : PyState :=
  let st := { st with sessionMemory := some [] }
  session_put ⟨MessageRole.SYSTEM, "You are a helpful assistant."⟩ st

/-- SimpleChatbotWorkflow.generate_response: one completion over the session
memory transcript. -/
def simple_generate_response (cb : ChatBackend) (st : PyState) : PyResult String :=
  chat_create cb st.sessionModel (st.sessionMemory.getD []) st

/-- The try-block body of SimpleChatbotWorkflow.execute_request_workflow. -/
def simple_chatbot_body (cb : ChatBackend) (user_input : String) (st : PyState) :
    PyResult String :=
  let st := session_put ⟨MessageRole.HUMAN, user_input⟩ st
  match simple_generate_response cb st with
  | .err e st => .err e st
  | .ok r st => .ok r (session_put ⟨MessageRole.ASSISTANT, r⟩ st)

/-- SimpleChatbotWorkflow.execute_request_workflow. Its only parameter is
user_input, as in the source; the session memory is set up lazily, outside
the try block. -/
def simple_chatbot_execute_request_workflow (cb : ChatBackend) (user_input : String)
    (st : PyState) : PyResult String :=
  let st := if st.sessionMemory.isNone then simple_setup_chat_store st else st
  catch_apology (simple_chatbot_body cb user_input st)

/-! ### src/services/workflows/prompt_optimization_workflow.py -/

/-- PromptOptimizationWorkflow._setup_chat_store. -/
def prompt_opt_setup_chat_store (st : PyState) : PyState :=
  let st := { st with sessionMemory := some [] }
  session_put ⟨MessageRole.SYSTEM, "You are a helpful assistant that optimizes prompts."⟩ st

/-- The f-string of evaluate_prompt. -/
def evaluation_prompt (p : String) : String :=
  "Evaluate the following user prompt to determine if optimization is needed, considering the conversation history:\nUser Prompt: "
    ++ p

/-- The payload evaluate_prompt passes to optimize_prompt. -/
structure EvalPayload where
  needs_optimization : Bool
  original_prompt : String
  deriving DecidableEq, Repr

/-- PromptOptimizationWorkflow.evaluate_prompt: ask the chat client over the
session transcript plus the evaluation prompt; needs_optimization holds
exactly when "yes" occurs in the lower-cased response. -/
def evaluate_prompt (cb : ChatBackend) (payload : String) (st : PyState) :
    PyResult EvalPayload :=
  match chat_create cb st.sessionModel
      ((st.sessionMemory.getD []) ++ [⟨MessageRole.HUMAN, evaluation_prompt payload⟩]) st with
  | .err e st => .err e st
  | .ok content st =>
    .ok { needs_optimization := strContains (pyLower content) "yes",
          original_prompt := payload } st

/-- The f-string of optimize_prompt. -/
def optimization_prompt (p : String) : String :=
  "Improve the following user prompt to better fit the entire conversation history:\nOriginal Prompt: "
    ++ p

/-- PromptOptimizationWorkflow.optimize_prompt: pass the original prompt
through untouched when no optimization is needed, otherwise return the
optimizer completion. -/
def optimize_prompt (cb : ChatBackend) (payload : EvalPayload) (st : PyState) :
    PyResult String :=
  if !payload.needs_optimization then .ok payload.original_prompt st
  else
    match chat_create cb st.sessionModel
        ((st.sessionMemory.getD [])
          ++ [⟨MessageRole.HUMAN, optimization_prompt payload.original_prompt⟩]) st with
    | .err e st => .err e st
    | .ok content st => .ok content st

/-- PromptOptimizationWorkflow.generate_response: complete against the final
prompt appended to the session transcript. -/
def prompt_opt_generate_response (cb : ChatBackend) (prompt : String) (st : PyState) :
    PyResult String :=
  chat_create cb st.sessionModel
    ((st.sessionMemory.getD []) ++ [⟨MessageRole.HUMAN, prompt⟩]) st

/-- The try-block body of PromptOptimizationWorkflow.execute_request_workflow. -/
def prompt_opt_body (cb : ChatBackend) (user_input : String) (st : PyState) :
    PyResult String :=
  let st := session_put ⟨MessageRole.HUMAN, user_input⟩ st
  match evaluate_prompt cb user_input st with
  | .err e st => .err e st
  | .ok payload st =>
    match optimize_prompt cb payload st with
    | .err e st => .err e st
    | .ok prompt st =>
      match prompt_opt_generate_response cb prompt st with
      | .err e st => .err e st
      | .ok resp st => .ok resp (session_put ⟨MessageRole.ASSISTANT, resp⟩ st)

/-- PromptOptimizationWorkflow.execute_request_workflow (user_input is its
only parameter, as in the source). -/
def prompt_opt_execute_request_workflow (cb : ChatBackend) (user_input : String)
    (st : PyState) : PyResult String :=
  let st := if st.sessionMemory.isNone then prompt_opt_setup_chat_store st else st
  catch_apology (prompt_opt_body cb user_input st)

/-! ### src/services/workflows/web_search_workflow.py -/

/-- WebSearchWorkflow._setup_chat_store: fresh session memory, no system
message. -/
def web_search_setup_chat_store (st : PyState) : PyState :=
  { st with sessionMemory := some [] }

/-- The f-string of optimize_query. -/
def query_optimization_prompt (q : String) : String :=
  "Convert the following user query into a concise, search-friendly format suitable for web searching:\nUser Query: "
    ++ q

/-- WebSearchWorkflow.optimize_query. -/
def optimize_query (cb : ChatBackend) (q : String) (st : PyState) : PyResult String :=
  chat_create cb st.sessionModel
    ((st.sessionMemory.getD []) ++ [⟨MessageRole.HUMAN, query_optimization_prompt q⟩]) st

/-- WebSearchWorkflow.perform_web_search: delegate to the search agent. -/
def perform_web_search (sb : SearchBackend) (q : String) (st : PyState) :
    PyResult String :=
  match sb.achat q with
  | .error e => .err e st
  | .ok r => .ok r st

/-- The f-string of the web-search generate_final_response. -/
def web_search_response_prompt (results : String) : String :=
  "Based on the following search results, provide a comprehensive and informative answer to the user\x27s query, including relevant URLs:\nSearch Results: "
    ++ results ++ "\nFinal Response:"

/-- WebSearchWorkflow.generate_final_response. -/
def web_search_generate_final_response (cb : ChatBackend) (results : String)
    (st : PyState) : PyResult String :=
  chat_create cb st.sessionModel
    ((st.sessionMemory.getD []) ++ [⟨MessageRole.HUMAN, web_search_response_prompt results⟩]) st

/-- The try-block body of WebSearchWorkflow.execute_request_workflow. -/
def web_search_body (cb : ChatBackend) (sb : SearchBackend) (user_input : String)
    (st : PyState) : PyResult String :=
  let st := session_put ⟨MessageRole.HUMAN, user_input⟩ st
  match optimize_query cb user_input st with
  | .err e st => .err e st
  | .ok oq st =>
    match perform_web_search sb oq st with
    | .err e st => .err e st
    | .ok results st =>
      match web_search_generate_final_response cb results st with
      | .err e st => .err e st
      | .ok resp st => .ok resp (session_put ⟨MessageRole.ASSISTANT, resp⟩ st)

/-- WebSearchWorkflow.execute_request_workflow (user_input is its only
parameter, as in the source). -/
def web_search_execute_request_workflow (cb : ChatBackend) (sb : SearchBackend)
    (user_input : String) (st : PyState) : PyResult String :=
  let st := if st.sessionMemory.isNone then web_search_setup_chat_store st else st
  catch_apology (web_search_body cb sb user_input st)

/-! ### src/services/workflow_factory.py and src/services/chatbot_service.py -/

/-- The four workflow classes the factory can construct. -/
inductive WorkflowVariant where
  | prompt_optimization
  | multi_step_agent
  | simple_chatbot
  | web_search
  deriving DecidableEq, Repr

/-- WorkflowFactory.create_workflow: the if/elif chain over the workflow-type
string; anything else raises ValueError. -/
def create_workflow (workflow_type : String) : Except PyError WorkflowVariant :=
  if workflow_type = "prompt_optimization" then Except.ok WorkflowVariant.prompt_optimization
  else if workflow_type = "multi_step_agent" then Except.ok WorkflowVariant.multi_step_agent
  else if workflow_type = "simple_chatbot" then Except.ok WorkflowVariant.simple_chatbot
  else if workflow_type = "web_search" then Except.ok WorkflowVariant.web_search
  else Except.error (PyError.valueError ("Invalid workflow type: " ++ workflow_type))

/-- How many positional arguments (beyond self) each variant's
execute_request_workflow signature accepts in the source: the multi-step
agent takes (user_input, history, model); the other three take user_input
only. -/
def execute_positional_params : WorkflowVariant → Nat
  | WorkflowVariant.multi_step_agent => 3
  | _ => 1

/-- The call `workflow.execute_request_workflow(user_input, history, model)`
ChatbotService makes, under Python call semantics: three positional arguments
against the variant's signature, TypeError when the signature takes fewer. -/
def call_execute_request_workflow (b : Backend) (cb : ChatBackend) (sb : SearchBackend)
    (v : WorkflowVariant) (user_input : String) (history : Option (List HistEntry))
    (model : String) (st : PyState) : PyResult String :=
  if execute_positional_params v < 3 then
    .err (PyError.typeError
      "execute_request_workflow() takes 2 positional arguments but 4 were given") st
  else
    match v with
    | WorkflowVariant.multi_step_agent =>
        multi_step_execute_request_workflow b user_input history model st
    | WorkflowVariant.simple_chatbot =>
        simple_chatbot_execute_request_workflow cb user_input st
    | WorkflowVariant.prompt_optimization =>
        prompt_opt_execute_request_workflow cb user_input st
    | WorkflowVariant.web_search =>
        web_search_execute_request_workflow cb sb user_input st

/-- ChatbotService.process_request: resolve the workflow through the factory,
then call its execute_request_workflow with (user_input, history, model) and
return its result unchanged. -/
def process_request (b : Backend) (cb : ChatBackend) (sb : SearchBackend)
    (user_input : String) (workflow_type : String) (history : Option (List HistEntry))
    (model : String) (st : PyState) : PyResult String :=
  match create_workflow workflow_type with
  | .error e => .err e st
  | .ok v => call_execute_request_workflow b cb sb v user_input history model st

/-! ### Event-trace model of the multi-step pipeline's coordination

execute_request_workflow awaits decompose_task, then execute_subtasks —
whose asyncio.gather interleaves the per-subtask coroutines arbitrarily but
returns only when every one has resolved — then combine_results, then
generate_final_response. The trace of one invocation is therefore the
decompose-completion event, followed by some interleaving of the subtask
events, followed by the combine and finalize entry events. -/

/-- Observable scheduling events of one multi-step invocation. -/
inductive StageEv where
  | decomposeDone
  | execStart (i : Nat)
  | execDone (i : Nat)
  | combineStart
  | finalizeStart
  deriving DecidableEq, Repr

/-- Is this an execution event of subtask i. -/
def isExecEvOf (i : Nat) : StageEv → Bool
  | StageEv.execStart j => j == i
  | StageEv.execDone j => j == i
  | _ => false

/-- Is this an execution event of some subtask below n. -/
def isExecEvLt (n : Nat) : StageEv → Bool
  | StageEv.execStart i => decide (i < n)
  | StageEv.execDone i => decide (i < n)
  | _ => false

/-- The events of subtask i inside an interleaving, in order. -/
def eventsOf (i : Nat) (il : List StageEv) : List StageEv := il.filter (isExecEvOf i)

/-- A list of events is a possible asyncio.gather interleaving of n subtask
coroutines: it holds only execution events of subtasks below n, and each
subtask's own events occur in its program order — its start, then its
completion, each exactly once. The order across different subtasks is
unconstrained. -/
def ValidGather (n : Nat) (il : List StageEv) : Prop :=
  (∀ e ∈ il, isExecEvLt n e = true) ∧
  (∀ i, i < n → eventsOf i il = [StageEv.execStart i, StageEv.execDone i])

instance (n : Nat) (il : List StageEv) : Decidable (ValidGather n il) := by
  unfold ValidGather; infer_instance

/-- The trace of one multi-step invocation whose gather stage interleaved as
il: the sequential awaits of execute_request_workflow place the decompose
completion first and the combine and finalize entries after the whole
interleaving. -/
def multi_step_trace (il : List StageEv) : List StageEv :=
  StageEv.decomposeDone :: (il ++ [StageEv.combineStart, StageEv.finalizeStart])

/-! ### Helper lemmas -/

/-- Folding put over a history appends the translated messages in order. -/
theorem foldl_put_eq_append (h : List HistEntry) (m : Memory) :
    h.foldl (fun acc e => acc.put (entryToMessage e)) m = m ++ h.map entryToMessage := by
  induction h generalizing m with
  | nil => simp
  | cons e t ih =>
    simp only [List.foldl_cons, List.map_cons]
    rw [ih]
    simp [Memory.put]

/-- store_history_in_memory on a present history appends the translated
messages in the history's order. -/
theorem store_history_append (h : List HistEntry) (m : Memory) :
    store_history_in_memory (some h) m = m ++ h.map entryToMessage := by
  unfold store_history_in_memory
  rcases h with _ | ⟨e, t⟩
  · simp
  · show (if (e :: t).isEmpty = true then m else _) = _
    rw [if_neg (by simp), foldl_put_eq_append]

/-- catch_apology never lets an exception escape. -/
theorem catch_apology_isOk (r : PyResult String) : (catch_apology r).isOk = true := by
  cases r <;> simp [catch_apology, PyResult.isOk]

/-! ### Claim theorems -/

/-- C9: every history entry loaded into memory gets its role translated
case-insensitively — any casing of "user" maps to the user role, any casing
of "assistant" to the assistant role, everything else to the system role —
and the entries are appended to the memory in the history's order. -/
theorem C9_history_role_translation (h : List HistEntry) (m : Memory) (e : HistEntry) :
    store_history_in_memory (some h) m = m ++ h.map entryToMessage ∧
    (pyUpper (e.role.getD "") = "USER" → (entryToMessage e).role = MessageRole.HUMAN) ∧
    (pyUpper (e.role.getD "") = "ASSISTANT" →
      (entryToMessage e).role = MessageRole.ASSISTANT) ∧
    (pyUpper (e.role.getD "") ≠ "USER" → pyUpper (e.role.getD "") ≠ "ASSISTANT" →
      (entryToMessage e).role = MessageRole.SYSTEM) ∧
    (entryToMessage ⟨some "uSeR", some "c"⟩).role = MessageRole.HUMAN ∧
    (entryToMessage ⟨some "Assistant", some "c"⟩).role = MessageRole.ASSISTANT ∧
    (entryToMessage ⟨some "tool", some "c"⟩).role = MessageRole.SYSTEM := by
  refine ⟨store_history_append h m, ?_, ?_, ?_, by decide, by decide, by decide⟩
  · intro hu
    simp [entryToMessage, translateRole, hu]
  · intro ha
    by_cases hu : pyUpper (e.role.getD "") = "USER"
    · rw [hu] at ha; exact absurd ha (by decide)
    · simp [entryToMessage, translateRole, hu, ha]
  · intro hu ha
    simp [entryToMessage, translateRole, hu, ha]

/-- C10: store_history_in_memory is total over malformed input — a None or
empty history appends nothing, an entry without a "role" key becomes a
system-role message, an entry without a "content" key gets empty content. -/
theorem C10_store_history_malformed (m : Memory) (c r : String) :
    store_history_in_memory none m = m ∧
    store_history_in_memory (some []) m = m ∧
    entryToMessage ⟨none, some c⟩ = ⟨MessageRole.SYSTEM, c⟩ ∧
    entryToMessage ⟨some r, none⟩ = ⟨translateRole r, ""⟩ ∧
    store_history_in_memory (some [⟨none, none⟩]) m
      = m ++ [⟨MessageRole.SYSTEM, ""⟩] := by
  exact ⟨rfl, rfl, rfl, rfl, by rw [store_history_append]; rfl⟩

/-- C6: the factory maps each of the four enumeration values to its variant
and raises a ValueError, constructing nothing, on any other string. -/
theorem C6_workflow_factory (t : String) :
    create_workflow "simple_chatbot" = Except.ok WorkflowVariant.simple_chatbot ∧
    create_workflow "multi_step_agent" = Except.ok WorkflowVariant.multi_step_agent ∧
    create_workflow "prompt_optimization" = Except.ok WorkflowVariant.prompt_optimization ∧
    create_workflow "web_search" = Except.ok WorkflowVariant.web_search ∧
    (t ∉ ["simple_chatbot", "multi_step_agent", "prompt_optimization", "web_search"] →
      create_workflow t
        = Except.error (PyError.valueError ("Invalid workflow type: " ++ t))) := by
  refine ⟨rfl, rfl, rfl, rfl, fun ht => ?_⟩
  simp only [List.mem_cons, List.not_mem_nil, or_false, not_or] at ht
  obtain ⟨h1, h2, h3, h4⟩ := ht
  simp [create_workflow, h1, h2, h3, h4]

/-- C1 counterexample: a decomposition response of 5 non-empty candidate
lines yields 5 subtasks — the stage enforces no cap of 3. -/
theorem C1_counterexample :
    ¬ (decompose_subtasks ["a", "b", "c", "d", "e"]).length ≤ 3 := by decide

/-- C1 as amended: the Decompose stage discards empty and whitespace-only
candidates, keeps every remaining candidate (in order, with no cap), strips
each kept description and starts every result empty; 5 non-empty candidates
yield 5 subtasks. -/
theorem C1_decompose_subtasks (candidates : List String) (s : Subtask)
    (hs : s ∈ decompose_subtasks candidates) :
    s.result = "" ∧ s.description.isEmpty = false ∧
    (decompose_subtasks candidates).map Subtask.description
      = (candidates.filter (fun t => !(pyStrip t).isEmpty)).map pyStrip ∧
    (decompose_subtasks candidates).length
      = (candidates.filter (fun t => !(pyStrip t).isEmpty)).length ∧
    (decompose_subtasks ["a", "b", "c", "d", "e"]).length = 5 := by
  refine ⟨?_, ?_, ?_, by simp [decompose_subtasks], by decide⟩
  · simp only [decompose_subtasks, List.mem_map] at hs
    obtain ⟨t, _, rfl⟩ := hs
    rfl
  · simp only [decompose_subtasks, List.mem_map] at hs
    obtain ⟨t, htmem, rfl⟩ := hs
    have := List.of_mem_filter htmem
    simpa using this
  · simp [decompose_subtasks, List.map_map]

/-- C1 witness: the amended statement evaluated on the 5-line scenario. -/
theorem C1_decompose_subtasks_witness :
    (decompose_subtasks ["a", "b", "c", "d", "e"]).length = 5 :=
  (C1_decompose_subtasks ["a", "b", "c", "d", "e"] ⟨"a", ""⟩ (by decide)).2.2.2.2

/-! ### Concrete stubs for witnesses and counterexamples -/

/-- A stub chat client that answers "Hello there!" to any request. -/
def helloBackend : ChatBackend := ⟨fun _ _ => Except.ok "Hello there!"⟩

/-- A stub multi-step LLM. -/
def stubLLM : Backend := ⟨fun _ => Except.ok ["t1", "t2"], fun _ => Except.ok "r"⟩

/-- A stub search agent. -/
def stubSearch : SearchBackend := ⟨fun _ => Except.ok "results"⟩

/-- A fresh session state before any turn, with the given session model. -/
def freshState (model : String) : PyState := ⟨[], none, model, [], [], []⟩

/-- C2 counterexample: in the spec's scenario — input "Hi", empty history,
stub answering "Hello there!" — the session memory after the run is not
[user:"Hi", assistant:"Hello there!"]: the workflow loads no history and a
fresh session is seeded with a system message. -/
theorem C2_counterexample :
    ¬ ((simple_chatbot_execute_request_workflow helloBackend "Hi"
          (freshState "llama-3.1-70b-versatile")).finalState.sessionMemory
        = some [⟨MessageRole.HUMAN, "Hi"⟩, ⟨MessageRole.ASSISTANT, "Hello there!"⟩]) := by
  decide

/-- C2 as amended: SimpleChatbotWorkflow.execute_request_workflow takes no
history parameter and loads no history; on a session whose memory was unset,
a successful run leaves exactly 3 messages — the seeded system prompt, the
user input as a user message, the response as an assistant message — and
returns the response. -/
theorem C2_simple_chatbot_memory (cb : ChatBackend) (user_input r : String)
    (st : PyState) (hmem : st.sessionMemory = none)
    (hok : cb.create st.sessionModel
        [⟨MessageRole.SYSTEM, "You are a helpful assistant."⟩,
         ⟨MessageRole.HUMAN, user_input⟩] = Except.ok r) :
    simple_chatbot_execute_request_workflow cb user_input st
      = PyResult.ok r
          { st with
            sessionMemory := some
              [⟨MessageRole.SYSTEM, "You are a helpful assistant."⟩,
               ⟨MessageRole.HUMAN, user_input⟩,
               ⟨MessageRole.ASSISTANT, r⟩],
            chatCalls := st.chatCalls
              ++ [(st.sessionModel,
                   [⟨MessageRole.SYSTEM, "You are a helpful assistant."⟩,
                    ⟨MessageRole.HUMAN, user_input⟩])] } := by
  obtain ⟨mem, smem, smodel, stg, lc, cc⟩ := st
  simp only at hmem hok
  subst hmem
  simp [simple_chatbot_execute_request_workflow, simple_setup_chat_store, session_put,
        simple_chatbot_body, simple_generate_response, chat_create, catch_apology,
        Memory.put, hok]

/-- C2 witness: the amended statement evaluated on the spec's scenario. -/
theorem C2_simple_chatbot_memory_witness :
    simple_chatbot_execute_request_workflow helloBackend "Hi"
        (freshState "llama-3.1-70b-versatile")
      = PyResult.ok "Hello there!"
          ⟨[], some [⟨MessageRole.SYSTEM, "You are a helpful assistant."⟩,
                     ⟨MessageRole.HUMAN, "Hi"⟩,
                     ⟨MessageRole.ASSISTANT, "Hello there!"⟩],
            "llama-3.1-70b-versatile", [], [],
            [("llama-3.1-70b-versatile",
              [⟨MessageRole.SYSTEM, "You are a helpful assistant."⟩,
               ⟨MessageRole.HUMAN, "Hi"⟩])]⟩ :=
  C2_simple_chatbot_memory helloBackend "Hi" "Hello there!"
    (freshState "llama-3.1-70b-versatile") rfl rfl

/-- C4 counterexample: with the unknown session model "gpt-unknown" the
simple-chatbot workflow raises no configuration error and calls the backend
once — model binding does not happen before the stages for every workflow. -/
theorem C4_counterexample :
    (simple_chatbot_execute_request_workflow helloBackend "Hi"
        (freshState "gpt-unknown")).isOk = true ∧
    (simple_chatbot_execute_request_workflow helloBackend "Hi"
        (freshState "gpt-unknown")).finalState.chatCalls.length = 1 := by
  decide

/-- C4 as amended: only the multi-step agent binds the model, and it does so
first: an identifier outside the known set raises ValueError "Unsupported
model: …" with the state untouched — no stage entered, no backend call made;
the other three workflows never bind the model and never raise such an error
(any failure there ends in the apology result instead). -/
theorem C4_model_binding (b : Backend) (cb : ChatBackend) (sb : SearchBackend)
    (user_input model : String) (history : Option (List HistEntry)) (st : PyState)
    (hm : model ∉ model_mapping_keys) :
    multi_step_execute_request_workflow b user_input history model st
      = PyResult.err (PyError.valueError ("Unsupported model: " ++ model)) st ∧
    (simple_chatbot_execute_request_workflow cb user_input st).isOk = true ∧
    (prompt_opt_execute_request_workflow cb user_input st).isOk = true ∧
    (web_search_execute_request_workflow cb sb user_input st).isOk = true := by
  refine ⟨?_, ?_, ?_, ?_⟩
  · simp [multi_step_execute_request_workflow, set_model, hm]
  · unfold simple_chatbot_execute_request_workflow
    exact catch_apology_isOk _
  · unfold prompt_opt_execute_request_workflow
    exact catch_apology_isOk _
  · unfold web_search_execute_request_workflow
    exact catch_apology_isOk _

/-- C4 witness: the amended statement evaluated at model "gpt-unknown". -/
theorem C4_model_binding_witness :
    multi_step_execute_request_workflow stubLLM "Hi" none "gpt-unknown" (freshState "m")
      = PyResult.err (PyError.valueError ("Unsupported model: " ++ "gpt-unknown"))
          (freshState "m") ∧
    (simple_chatbot_execute_request_workflow helloBackend "Hi" (freshState "m")).isOk
      = true ∧
    (prompt_opt_execute_request_workflow helloBackend "Hi" (freshState "m")).isOk
      = true ∧
    (web_search_execute_request_workflow helloBackend stubSearch "Hi"
        (freshState "m")).isOk = true :=
  C4_model_binding stubLLM helloBackend stubSearch "Hi" "gpt-unknown" none
    (freshState "m") (by decide)

/-- C3: evaluating ChatbotService.process_request at the failing inputs —
the multi-step agent receives (user_input, history, model) as the claim
says, but for the simple-chatbot, prompt-optimization and web-search types
the same call raises TypeError, because those variants' signatures take only
user_input, so no result text is returned at all. -/
theorem C3_process_request_type_error (b : Backend) (cb : ChatBackend)
    (sb : SearchBackend) (user_input model : String)
    (history : Option (List HistEntry)) (st : PyState) :
    process_request b cb sb user_input "multi_step_agent" history model st
      = multi_step_execute_request_workflow b user_input history model st ∧
    process_request b cb sb user_input "simple_chatbot" history model st
      = PyResult.err (PyError.typeError
          "execute_request_workflow() takes 2 positional arguments but 4 were given") st ∧
    process_request b cb sb user_input "prompt_optimization" history model st
      = PyResult.err (PyError.typeError
          "execute_request_workflow() takes 2 positional arguments but 4 were given") st ∧
    process_request b cb sb user_input "web_search" history model st
      = PyResult.err (PyError.typeError
          "execute_request_workflow() takes 2 positional arguments but 4 were given") st :=
  ⟨rfl, rfl, rfl, rfl⟩

/-- C5: for every workflow variant, an exception raised inside the try-block
body — history loading, the stage pipeline, or the memory appends — is
caught at the single outermost boundary and converted to the fixed apology
string (with whatever partial state mutations stand, but no partial result
text); under a valid model binding no workflow ever propagates a raw failure
to its caller. -/
theorem C5_apology_boundary (b : Backend) (cb : ChatBackend) (sb : SearchBackend)
    (user_input model : String) (history : Option (List HistEntry)) (st : PyState)
    (hm : model ∈ model_mapping_keys) :
    (multi_step_execute_request_workflow b user_input history model st).isOk = true ∧
    (∀ e st2, multi_step_body b user_input history st = PyResult.err e st2 →
        multi_step_execute_request_workflow b user_input history model st
          = PyResult.ok apology st2) ∧
    (simple_chatbot_execute_request_workflow cb user_input st).isOk = true ∧
    (∀ e st2,
        simple_chatbot_body cb user_input
            (if st.sessionMemory.isNone then simple_setup_chat_store st else st)
          = PyResult.err e st2 →
        simple_chatbot_execute_request_workflow cb user_input st
          = PyResult.ok apology st2) ∧
    (prompt_opt_execute_request_workflow cb user_input st).isOk = true ∧
    (∀ e st2,
        prompt_opt_body cb user_input
            (if st.sessionMemory.isNone then prompt_opt_setup_chat_store st else st)
          = PyResult.err e st2 →
        prompt_opt_execute_request_workflow cb user_input st
          = PyResult.ok apology st2) ∧
    (web_search_execute_request_workflow cb sb user_input st).isOk = true ∧
    (∀ e st2,
        web_search_body cb sb user_input
            (if st.sessionMemory.isNone then web_search_setup_chat_store st else st)
          = PyResult.err e st2 →
        web_search_execute_request_workflow cb sb user_input st
          = PyResult.ok apology st2) := by
  have hsm : set_model model = Except.ok model := by simp [set_model, hm]
  refine ⟨?_, ?_, ?_, ?_, ?_, ?_, ?_, ?_⟩
  · unfold multi_step_execute_request_workflow
    rw [hsm]
    exact catch_apology_isOk _
  · intro e st2 hb
    unfold multi_step_execute_request_workflow
    rw [hsm, hb]
    rfl
  · unfold simple_chatbot_execute_request_workflow
    exact catch_apology_isOk _
  · intro e st2 hb
    show catch_apology (simple_chatbot_body cb user_input
        (if st.sessionMemory.isNone then simple_setup_chat_store st else st))
      = PyResult.ok apology st2
    rw [hb]
    rfl
  · unfold prompt_opt_execute_request_workflow
    exact catch_apology_isOk _
  · intro e st2 hb
    show catch_apology (prompt_opt_body cb user_input
        (if st.sessionMemory.isNone then prompt_opt_setup_chat_store st else st))
      = PyResult.ok apology st2
    rw [hb]
    rfl
  · unfold web_search_execute_request_workflow
    exact catch_apology_isOk _
  · intro e st2 hb
    show catch_apology (web_search_body cb sb user_input
        (if st.sessionMemory.isNone then web_search_setup_chat_store st else st))
      = PyResult.ok apology st2
    rw [hb]
    rfl

/-- C5 witness: the boundary evaluated at a concrete model and stubs. -/
theorem C5_apology_boundary_witness :
    (multi_step_execute_request_workflow stubLLM "Hi" none "gpt-4o"
        (freshState "gpt-4o")).isOk = true :=
  (C5_apology_boundary stubLLM helloBackend stubSearch "Hi" "gpt-4o" none
    (freshState "gpt-4o") (by decide)).1

/-- C8: whenever Stage A found no optimization need, the pipeline hands the
respond stage the original user input itself — the very same string — and
whenever it found one, it hands it the optimizer's output. -/
theorem C8_prompt_passthrough (cb : ChatBackend) (user_input : String)
    (payload : EvalPayload) (st st2 : PyState)
    (heval : evaluate_prompt cb user_input
        (session_put ⟨MessageRole.HUMAN, user_input⟩ st) = PyResult.ok payload st2) :
    payload.original_prompt = user_input ∧
    (payload.needs_optimization = false →
      prompt_opt_body cb user_input st
        = match prompt_opt_generate_response cb user_input st2 with
          | .err e st3 => .err e st3
          | .ok resp st3 => .ok resp (session_put ⟨MessageRole.ASSISTANT, resp⟩ st3)) ∧
    (∀ opt st3, payload.needs_optimization = true →
      chat_create cb st2.sessionModel
          ((st2.sessionMemory.getD [])
            ++ [⟨MessageRole.HUMAN, optimization_prompt user_input⟩]) st2
        = PyResult.ok opt st3 →
      prompt_opt_body cb user_input st
        = match prompt_opt_generate_response cb opt st3 with
          | .err e st4 => .err e st4
          | .ok resp st4 => .ok resp (session_put ⟨MessageRole.ASSISTANT, resp⟩ st4)) := by
  have horig : payload.original_prompt = user_input := by
    unfold evaluate_prompt at heval
    cases hc : chat_create cb
        (session_put ⟨MessageRole.HUMAN, user_input⟩ st).sessionModel
        (((session_put ⟨MessageRole.HUMAN, user_input⟩ st).sessionMemory.getD [])
          ++ [⟨MessageRole.HUMAN, evaluation_prompt user_input⟩])
        (session_put ⟨MessageRole.HUMAN, user_input⟩ st) with
    | err e st4 => rw [hc] at heval; simp at heval
    | ok content st4 =>
      rw [hc] at heval
      simp only [PyResult.ok.injEq] at heval
      rw [← heval.1]
  refine ⟨horig, ?_, ?_⟩
  · intro hno
    simp only [prompt_opt_body]
    rw [heval]
    dsimp only
    have hop : optimize_prompt cb payload st2 = PyResult.ok user_input st2 := by
      simp [optimize_prompt, hno, horig]
    rw [hop]
  · intro opt st3 hyes hopt
    simp only [prompt_opt_body]
    rw [heval]
    dsimp only
    have hop : optimize_prompt cb payload st2 = PyResult.ok opt st3 := by
      unfold optimize_prompt
      rw [hyes, horig]
      simp only [Bool.not_true, Bool.false_eq_true, if_false]
      rw [hopt]
    rw [hop]

/-- C8 witness: the passthrough evaluated with a stub evaluator answering
"no" on input "Hi". -/
theorem C8_prompt_passthrough_witness :
    (EvalPayload.mk false "Hi").original_prompt = "Hi" :=
  (C8_prompt_passthrough ⟨fun _ _ => Except.ok "no"⟩ "Hi" ⟨false, "Hi"⟩
    (freshState "m")
    ⟨[], some [⟨MessageRole.HUMAN, "Hi"⟩], "m", [], [],
     [("m", [⟨MessageRole.HUMAN, "Hi"⟩,
             ⟨MessageRole.HUMAN, evaluation_prompt "Hi"⟩])]⟩
    (by decide)).1

/-! ### Ordering lemmas for the pipeline trace -/

/-- When a filter returns exactly the pair [a, b] with a ≠ b, a occurs
strictly before b in the list. -/
theorem indexOf_lt_of_filter_pair {α : Type} [DecidableEq α] (p : α → Bool) :
    ∀ (l : List α) (a b : α), l.filter p = [a, b] → a ≠ b →
      List.indexOf a l < List.indexOf b l := by
  intro l
  induction l with
  | nil => intro a b h hne; simp at h
  | cons c t ih =>
    intro a b h hne
    by_cases hc : p c = true
    · rw [List.filter_cons_of_pos hc] at h
      have h1 : c = a := by injection h
      have h2 : t.filter p = [b] := by injection h
      subst h1
      rw [List.indexOf_cons_self, List.indexOf_cons_ne t hne]
      exact Nat.succ_pos _
    · rw [List.filter_cons_of_neg hc] at h
      have hamem : a ∈ t.filter p := by rw [h]; simp
      have hbmem : b ∈ t.filter p := by rw [h]; simp
      have hpa : p a = true := List.of_mem_filter hamem
      have hpb : p b = true := List.of_mem_filter hbmem
      have hca : c ≠ a := fun hh => hc (hh ▸ hpa)
      have hcb : c ≠ b := fun hh => hc (hh ▸ hpb)
      rw [List.indexOf_cons_ne t hca, List.indexOf_cons_ne t hcb]
      exact Nat.succ_lt_succ (ih a b h hne)

/-- C7: for every number of subtasks and every valid gather interleaving, the
trace orders the stages as a hard invariant — no subtask starts before the
decomposition completes, each subtask completes after it starts, and the
combine and finalize stages begin only after every subtask has completed. -/
theorem C7_pipeline_ordering (n : Nat) (il : List StageEv) (i : Nat)
    (hv : ValidGather n il) (hi : i < n) :
    (multi_step_trace il).indexOf StageEv.decomposeDone
      < (multi_step_trace il).indexOf (StageEv.execStart i) ∧
    (multi_step_trace il).indexOf (StageEv.execStart i)
      < (multi_step_trace il).indexOf (StageEv.execDone i) ∧
    (multi_step_trace il).indexOf (StageEv.execDone i)
      < (multi_step_trace il).indexOf StageEv.combineStart ∧
    (multi_step_trace il).indexOf StageEv.combineStart
      < (multi_step_trace il).indexOf StageEv.finalizeStart := by
  have h2 : il.filter (isExecEvOf i) = [StageEv.execStart i, StageEv.execDone i] := by
    simpa [eventsOf] using hv.2 i hi
  have hstart : StageEv.execStart i ∈ il :=
    List.mem_of_mem_filter (p := isExecEvOf i) (by rw [h2]; simp)
  have hdone : StageEv.execDone i ∈ il :=
    List.mem_of_mem_filter (p := isExecEvOf i) (by rw [h2]; simp)
  have hcn : StageEv.combineStart ∉ il := by
    intro hmem
    have := hv.1 _ hmem
    simp [isExecEvLt] at this
  have hfn : StageEv.finalizeStart ∉ il := by
    intro hmem
    have := hv.1 _ hmem
    simp [isExecEvLt] at this
  have horder : il.indexOf (StageEv.execStart i) < il.indexOf (StageEv.execDone i) :=
    indexOf_lt_of_filter_pair (isExecEvOf i) il _ _ h2 (by simp)
  have hlt : il.indexOf (StageEv.execDone i) < il.length :=
    List.indexOf_lt_length.mpr hdone
  have t0 : (multi_step_trace il).indexOf StageEv.decomposeDone = 0 := by
    unfold multi_step_trace
    exact List.indexOf_cons_self _ _
  have t1 : (multi_step_trace il).indexOf (StageEv.execStart i)
      = il.indexOf (StageEv.execStart i) + 1 := by
    unfold multi_step_trace
    rw [List.indexOf_cons_ne _
          (show StageEv.decomposeDone ≠ StageEv.execStart i by simp),
        List.indexOf_append_of_mem hstart]
  have t2 : (multi_step_trace il).indexOf (StageEv.execDone i)
      = il.indexOf (StageEv.execDone i) + 1 := by
    unfold multi_step_trace
    rw [List.indexOf_cons_ne _
          (show StageEv.decomposeDone ≠ StageEv.execDone i by simp),
        List.indexOf_append_of_mem hdone]
  have t3 : (multi_step_trace il).indexOf StageEv.combineStart = il.length + 1 := by
    unfold multi_step_trace
    rw [List.indexOf_cons_ne _
          (show StageEv.decomposeDone ≠ StageEv.combineStart by simp),
        List.indexOf_append_of_not_mem hcn, List.indexOf_cons_self]
  have t4 : (multi_step_trace il).indexOf StageEv.finalizeStart = il.length + 2 := by
    unfold multi_step_trace
    rw [List.indexOf_cons_ne _
          (show StageEv.decomposeDone ≠ StageEv.finalizeStart by simp),
        List.indexOf_append_of_not_mem hfn,
        List.indexOf_cons_ne _
          (show StageEv.combineStart ≠ StageEv.finalizeStart by simp),
        List.indexOf_cons_self]
  refine ⟨?_, ?_, ?_, ?_⟩
  · rw [t0, t1]; omega
  · rw [t1, t2]; omega
  · rw [t2, t3]; omega
  · rw [t3, t4]; omega

/-- A concrete gather interleaving of two subtasks, the second finishing
first. -/
def gatherIl0 : List StageEv :=
  [StageEv.execStart 0, StageEv.execStart 1, StageEv.execDone 1, StageEv.execDone 0]

/-- C7 witness: the ordering evaluated on a concrete two-subtask
interleaving. -/
theorem C7_pipeline_ordering_witness :
    (multi_step_trace gatherIl0).indexOf StageEv.decomposeDone
      < (multi_step_trace gatherIl0).indexOf (StageEv.execStart 0) ∧
    (multi_step_trace gatherIl0).indexOf (StageEv.execStart 0)
      < (multi_step_trace gatherIl0).indexOf (StageEv.execDone 0) ∧
    (multi_step_trace gatherIl0).indexOf (StageEv.execDone 0)
      < (multi_step_trace gatherIl0).indexOf StageEv.combineStart ∧
    (multi_step_trace gatherIl0).indexOf StageEv.combineStart
      < (multi_step_trace gatherIl0).indexOf StageEv.finalizeStart :=
  C7_pipeline_ordering 2 gatherIl0 0 (by decide) (by decide)

end Chatbot
